import Mathlib

/-!
Shallow embedding of the product-sync script.

The repository is a JavaScript tool that synchronises spreadsheet product
data into the Shopify admin GraphQL API.  Two source files carry all the
logic the specification's testable properties are about:

* the rate-limited request executor (`shopifyClient.js`):
  `extractThrottleInfo`, `applyPreemptiveThrottleWait`,
  `callShopifyGraphQL` with its 429 retry/backoff loop;
* the sync orchestrator (`productSync.js`): `buildProductSetInput`,
  `syncInventoryForProduct`, `syncAllProductsFromExcel`.

Modelling conventions:

* JavaScript numbers are modelled as rationals (`ℚ`); `NaN` results of
  `Number(...)`/`parseFloat(...)` are modelled as `Option ℚ = none`.
* A JS value that the code checks with `typeof x !== "number"` is
  modelled as `Option ℚ` with `none` for the non-number case.
* Spreadsheet cells of textual columns are modelled as `String` (the
  parser reads them with `defval: ""`, and the code immediately applies
  `String(x || "")`, which is the identity on strings); cells of the
  numeric columns are modelled by `Cell` below.
* Remote I/O is modelled by an oracle: the executor consumes a function
  from attempt number to transport outcome, and the orchestrator consumes
  a `RemoteEnv` of response functions; each run produces a trace of the
  requests issued and the suspensions performed.
* A thrown / rejected JS exception is modelled with `Except` (for the
  orchestrator) or a `threw` outcome (for the executor).
-/

/-! ### The rate-limited request executor (shopifyClient.js) -/

/-- MAX_RETRIES from shopifyClient.js. -/
def MAX_RETRIES : ℕ := 5

/-- INITIAL_BACKOFF_MS from shopifyClient.js. -/
def INITIAL_BACKOFF_MS : ℚ := 1000

/-- The throttleStatus block inside extensions.cost of a GraphQL response.
Each field is `none` when absent or not a number. -/
structure ThrottleStatusBlock where
  maximumAvailable : Option ℚ
  currentlyAvailable : Option ℚ
  restoreRate : Option ℚ
deriving DecidableEq

/-- The extensions.cost block of a GraphQL response. -/
structure CostBlock where
  requestedQueryCost : Option ℚ
  actualQueryCost : Option ℚ
  throttleStatus : Option ThrottleStatusBlock
deriving DecidableEq

/-- A successful GraphQL transport response body: its application-level
errors array (absent modelled as `[]`, each error kept as an opaque
string) and its optional extensions.cost block. -/
structure GraphQLData where
  errors : List String
  extensionsCost : Option CostBlock
deriving DecidableEq

/-- The info object built by extractThrottleInfo. -/
structure ThrottleInfo where
  requestedQueryCost : Option ℚ
  actualQueryCost : Option ℚ
  maximumAvailable : Option ℚ
  currentlyAvailable : Option ℚ
  restoreRate : Option ℚ
deriving DecidableEq

/-- extractThrottleInfo from shopifyClient.js: `null` when the cost block
is absent, otherwise the fields of the (possibly empty) throttleStatus. -/
def extractThrottleInfo (d : GraphQLData) : Option ThrottleInfo :=
  match d.extensionsCost with
  | none => none
  | some cost =>
    some { requestedQueryCost := cost.requestedQueryCost
           actualQueryCost := cost.actualQueryCost
           maximumAvailable := cost.throttleStatus.bind (·.maximumAvailable)
           currentlyAvailable := cost.throttleStatus.bind (·.currentlyAvailable)
           restoreRate := cost.throttleStatus.bind (·.restoreRate) }

/-- LOW_CREDITS_THRESHOLD from applyPreemptiveThrottleWait. -/
def LOW_CREDITS_THRESHOLD : ℚ := 50

/-- applyPreemptiveThrottleWait from shopifyClient.js, returning the
number of milliseconds slept (`none` when it returns without sleeping).
`Math.ceil` is the integer ceiling. -/
def applyPreemptiveThrottleWait (throttleInfo : Option ThrottleInfo) : Option ℚ :=
  match throttleInfo with
  | none => none
  | some ti =>
    match ti.currentlyAvailable, ti.restoreRate with
    | some currentlyAvailable, some restoreRate =>
      if currentlyAvailable < LOW_CREDITS_THRESHOLD then
        let desired := LOW_CREDITS_THRESHOLD * 2
        let deficit := max 0 (desired - currentlyAvailable)
        if 0 < deficit ∧ 0 < restoreRate then
          some ((⌈deficit / restoreRate * 1000⌉ : ℤ) : ℚ)
        else none
      else none
    | _, _ => none

/-- The retry-after response header of a 429 rejection: absent (missing or
falsy, e.g. the empty string), present but non-numeric under parseFloat,
or numeric with the parsed value in seconds. -/
inductive RetryAfterHeader where
  | absent
  | nonNumeric
  | numeric (seconds : ℚ)
deriving DecidableEq

/-- The wait duration the 429 branch of callShopifyGraphQL computes:
the current backoff, raised to the header's suggestion when that parses
to a number (`Math.max(backoffMs, retrySeconds * 1000)`). -/
def computeRetryAfterMs (backoffMs : ℚ) (h : RetryAfterHeader) : ℚ :=
  match h with
  | .absent => backoffMs
  | .nonNumeric => backoffMs
  | .numeric seconds => max backoffMs (seconds * 1000)

/-- Outcome of one transport attempt, as the axios call surfaces it:
a fulfilled response with its body, a rejection with HTTP status 429 and
its retry-after header, or any other rejection (network error, timeout,
non-2xx non-429 status: carried as an optional status code). -/
inductive TransportOutcome where
  | ok (data : GraphQLData)
  | http429 (header : RetryAfterHeader)
  | otherFailure (status : Option ℕ)
deriving DecidableEq

/-- How one callShopifyGraphQL invocation ends: a returned body, a
propagated (re-thrown) transport failure, or the unreachable
`throw new Error("Unexpected state ...")` after the loop. -/
inductive CallOutcome where
  | returned (data : GraphQLData)
  | threw (e : TransportOutcome)
  | exhaustedLoop
deriving DecidableEq

/-- Observable trace of one callShopifyGraphQL invocation: how many
transport requests were issued, the sleeps performed in order (both
backoff waits and the preemptive throttle wait), and how it ended. -/
structure ExecTrace where
  requests : ℕ
  waits : List ℚ
  outcome : CallOutcome
deriving DecidableEq

/-- The retry loop of callShopifyGraphQL.  `oracle n` is the transport
outcome of the n-th request (n starts at 1).  `attempt` and `backoffMs`
are the loop variables; `remaining` counts the iterations the guard
`attempt <= MAX_RETRIES` still allows, so the guard holds iff
`remaining > 0`. -/
def callLoopAux (oracle : ℕ → TransportOutcome) :
    ℕ → ℚ → ℕ → ExecTrace
  | _, _, 0 => ⟨0, [], .exhaustedLoop⟩
  | attempt, backoffMs, remaining + 1 =>
    let a := attempt + 1
    match oracle a with
    | .ok d =>
      if d.errors ≠ [] then
        ⟨1, [], .returned d⟩
      else
        ⟨1, (applyPreemptiveThrottleWait (extractThrottleInfo d)).toList, .returned d⟩
    | .http429 header =>
      let retryAfterMs := computeRetryAfterMs backoffMs header
      if a > MAX_RETRIES then
        ⟨1, [], .threw (.http429 header)⟩
      else
        let t := callLoopAux oracle a (backoffMs * 2) remaining
        ⟨t.requests + 1, retryAfterMs :: t.waits, t.outcome⟩
    | .otherFailure status => ⟨1, [], .threw (.otherFailure status)⟩

/-- callShopifyGraphQL from shopifyClient.js, as a function from the
transport oracle of one logical call to the call's trace.  `attempt`
starts at 0 and `backoffMs` at INITIAL_BACKOFF_MS on every invocation. -/
def callShopifyGraphQL (oracle : ℕ → TransportOutcome) : ExecTrace :=
  callLoopAux oracle 0 INITIAL_BACKOFF_MS (MAX_RETRIES + 1)

/-! ### The sync orchestrator (productSync.js)

Spreadsheet rows reach the orchestrator as objects produced by
`sheet_to_json` with `defval: ""`.  Textual columns are modelled as
`String`; the columns the code feeds to `Number(...)` are modelled by
`Cell`: `blank` is the empty-string default, `num q` a numeric value
(including numeric strings), `nan` a non-blank value whose `Number(...)`
is `NaN`. -/

/-- A spreadsheet cell of a numeric column. -/
inductive Cell where
  | blank
  | num (q : ℚ)
  | nan
deriving DecidableEq

/-- JavaScript `Number(cell)` (with `none` for `NaN`); `Number("") = 0`. -/
def jsNumber : Cell → Option ℚ
  | .blank => some 0
  | .num q => some q
  | .nan => none

/-- A row of the Products sheet.  Field names are the column names. -/
structure ProductRow where
  ProductHandle : String := ""
  ProductTitle : String := ""
  ProductDescriptionHtml : String := ""
  ProductType : String := ""
  Vendor : String := ""
  Tags : String := ""
  VariantSKU : String := ""
  VariantTitle : String := ""
  VariantPrice : Cell := .blank
  Status : String := ""
  VariantCompareAtPrice : Cell := .blank
  VariantInventoryQuantity : Cell := .blank
  VariantBarcode : String := ""
  VariantTaxable : String := ""
deriving DecidableEq

/-- A row of the Images sheet (only the fields buildProductSetInput reads). -/
structure ImageRow where
  ImageSrc : String := ""
  ImageAltText : String := ""
deriving DecidableEq

/-- A row of the Metafields sheet. -/
structure MetafieldRow where
  Namespace : String := ""
  Key : String := ""
  «Type» : String := ""
  Value : String := ""
deriving DecidableEq

/-- The configuration object from config.js (all four values are
required at startup; `defaultLocationId = ""` models a falsy value). -/
structure Config where
  storeDomain : String := ""
  accessToken : String := ""
  apiVersion : String := ""
  defaultLocationId : String := ""
deriving DecidableEq

/-- A variant node of a fetched product (PRODUCT_BY_HANDLE_QUERY).
`inventoryItemId = ""` models an absent inventoryItem or id; `sku = ""`
models an absent/empty sku (both are falsy in the source's guards). -/
structure ExistingVariant where
  id : String
  sku : String
  title : String
  inventoryItemId : String
deriving DecidableEq

/-- A product returned by fetchProductByHandle. -/
structure Product where
  id : String
  handle : String
  title : String
  variants : List ExistingVariant
deriving DecidableEq

/-- JavaScript `String.prototype.trim`, defined structurally over the
character list so that concrete instances evaluate inside proofs. -/
def jsTrim (s : String) : String :=
  ⟨((s.data.dropWhile Char.isWhitespace).reverse.dropWhile Char.isWhitespace).reverse⟩

/-- JavaScript `String.prototype.toUpperCase`, defined structurally over
the character list. -/
def jsToUpper (s : String) : String :=
  ⟨s.data.map Char.toUpper⟩

/-- parseTags from productSync.js. -/
def parseTags (tagsString : String) : List String :=
  if tagsString = "" then []
  else ((tagsString.splitOn ",").map jsTrim).filter (fun t => t.length > 0)

/-- mapStatus from productSync.js. -/
def mapStatus (raw : String) : String :=
  if raw = "" then "ACTIVE"
  else
    let s := jsToUpper (jsTrim raw)
    if s ∈ ["ACTIVE", "DRAFT", "ARCHIVED", "UNLISTED"] then s else "ACTIVE"

/-- Insertion-order deduplication, as `Array.from(new Set(list))`: keeps
the first occurrence of each element. -/
def dedupFirstSeen (l : List String) : List String :=
  l.foldl (fun acc v => if v ∈ acc then acc else acc ++ [v]) []

/-- An optionValues entry of a variant input. -/
structure OptionValueInput where
  optionName : String
  name : String
deriving DecidableEq

/-- A productOptions entry of the product set input. -/
structure ProductOption where
  name : String
  values : List String
deriving DecidableEq

/-- One variant entry of the product set input, as built by the `map`
inside buildProductSetInput.  `price = some none` models a `NaN` price
(`Number` of a non-numeric cell).  The source also computes a local
`inventoryQuantities` value for each row but never attaches it to the
variant input, so it has no observable effect and is not modelled. -/
structure VariantInput where
  id : Option String
  sku : Option String
  price : Option (Option ℚ)
  compareAtPrice : Option (Option ℚ)
  optionValues : List OptionValueInput
  barcode : Option String
  taxable : Option Bool
  inventoryItemTracked : Bool
deriving DecidableEq

/-- A metafields entry of the product set input. -/
structure MetafieldInput where
  «namespace» : String
  key : String
  type : String
  value : String
deriving DecidableEq

/-- A files entry of the product set input. -/
structure FileInput where
  originalSource : String
  filename : String
deriving DecidableEq

/-- The ProductSetInput payload built by buildProductSetInput. -/
structure ProductSetInput where
  title : String
  handle : String
  descriptionHtml : String
  productType : Option String
  vendor : Option String
  tags : List String
  status : String
  productOptions : List ProductOption
  variants : List VariantInput
  metafields : Option (List MetafieldInput)
  files : Option (List FileInput)
deriving DecidableEq

/-- Lookup in the `existingVariantsBySku` map: the map is filled by
iterating the fetched variants and calling `set` for each truthy sku, so
for a given key the **last** variant with that sku wins. -/
def existingVariantsBySkuGet (vars : List ExistingVariant) (sku : String) :
    Option ExistingVariant :=
  (vars.filter (fun v => v.sku == sku && v.sku != "")).getLast?

/-- The body of the `productRowsForHandle.map((row, idx) => ...)` inside
buildProductSetInput (the row index is never used by the body, so the
built variant depends only on the row itself and the fetched variants). -/
def buildVariantInput (existingVars : List ExistingVariant) (row : ProductRow) :
    VariantInput :=
  let sku := jsTrim row.VariantSKU
  let variantTitle := jsTrim row.VariantTitle
  let existing := if sku = "" then none else existingVariantsBySkuGet existingVars sku
  { id :=
      match existing with
      | some e => if e.id ≠ "" then some e.id else none
      | none => none
    sku := if sku = "" then none else some sku
    price := if row.VariantPrice = .blank then none else some (jsNumber row.VariantPrice)
    compareAtPrice :=
      if row.VariantCompareAtPrice = .blank then none
      else some (jsNumber row.VariantCompareAtPrice)
    optionValues := if variantTitle = "" then [] else [⟨"Title", variantTitle⟩]
    barcode := if row.VariantBarcode = "" then none else some row.VariantBarcode
    taxable := if jsToUpper (jsTrim row.VariantTaxable) = "TRUE" then some true else none
    inventoryItemTracked := true }

/-- The files entry built for one image row (`null` when the trimmed
source is empty; those nulls are removed by `.filter(Boolean)`). -/
def buildFile (img : ImageRow) : Option FileInput :=
  let src := jsTrim img.ImageSrc
  if src = "" then none
  else
    let urlParts := src.splitOn "/"
    let lastPart := urlParts.getLast?.getD ""
    let filename := if lastPart = "" then "image.jpg" else lastPart
    some ⟨src, filename⟩

/-- A default (all-blank) product row, standing in for the undefined
`productRowsForHandle[0]` of an empty group (the grouping step never
produces an empty group). -/
def emptyProductRow : ProductRow := {}

/-- buildProductSetInput from productSync.js. -/
def buildProductSetInput (handle : String) (productRowsForHandle : List ProductRow)
    (existingProduct : Option Product) (imagesForHandle : List ImageRow)
    (metafieldsForHandle : List MetafieldRow) : ProductSetInput :=
  let firstRow := productRowsForHandle.head?.getD emptyProductRow
  let title := jsTrim firstRow.ProductTitle
  let descriptionHtml := firstRow.ProductDescriptionHtml
  let productType := jsTrim firstRow.ProductType
  let vendor := jsTrim firstRow.Vendor
  let tags := parseTags firstRow.Tags
  let status := mapStatus firstRow.Status
  let uniqueVariantTitles :=
    dedupFirstSeen
      ((productRowsForHandle.map (fun r => jsTrim r.VariantTitle)).filter
        (fun v => v.length > 0))
  let productOptions : List ProductOption :=
    if uniqueVariantTitles.length > 0 then [⟨"Title", uniqueVariantTitles⟩] else []
  let existingVars :=
    match existingProduct with
    | some p => p.variants
    | none => []
  let variants := productRowsForHandle.map (buildVariantInput existingVars)
  let metafields := metafieldsForHandle.map
    (fun m => MetafieldInput.mk (jsTrim m.Namespace) (jsTrim m.Key) (jsTrim m.«Type») m.Value)
  let files := imagesForHandle.filterMap buildFile
  { title := title
    handle := handle
    descriptionHtml := descriptionHtml
    productType := if productType = "" then none else some productType
    vendor := if vendor = "" then none else some vendor
    tags := tags
    status := status
    productOptions := productOptions
    variants := variants
    metafields := if metafields.length > 0 then some metafields else none
    files := if files.length > 0 then some files else none }

/-- A field/message pair of a server-reported userErrors entry. -/
structure UserError where
  field : String
  message : String
deriving DecidableEq

/-- The productSet payload of an upsert response (`data.data.productSet`). -/
structure ProductSetPayload where
  product : Option Product
  userErrors : List UserError
deriving DecidableEq

/-- One quantity line of an inventorySetQuantities input. -/
structure QuantityLine where
  inventoryItemId : String
  locationId : String
  quantity : ℚ
deriving DecidableEq

/-- The InventorySetQuantitiesInput built by syncInventoryForProduct. -/
structure InventorySetInput where
  name : String
  reason : String
  ignoreCompareQuantity : Bool
  quantities : List QuantityLine
deriving DecidableEq

/-- The remote side of one orchestrator pass, as response oracles for the
four kinds of gateway calls the loop makes.  An `Except.error` models a
rejected promise (an exception thrown out of the gateway call, e.g. a
transport failure after retry exhaustion).  `lookupProduct` answers the
pre-upsert fetchProductByHandle of the loop body; `refetchProduct`
answers the fetchProductByHandle issued inside syncInventoryForProduct
(remote state may have changed between the two). -/
structure RemoteEnv where
  lookupProduct : String → Except String (Option Product)
  productSet : String → ProductSetInput → Except String (Option ProductSetPayload)
  refetchProduct : String → Except String (Option Product)
  inventorySet : InventorySetInput → Except String (List UserError)

/-- Lookup in the `inventoryItemIdBySku` map built by
syncInventoryForProduct (again last `set` wins). -/
def inventoryItemIdBySkuGet (vars : List ExistingVariant) (sku : String) :
    Option String :=
  ((vars.filter (fun v => v.sku == sku && v.sku != "" && v.inventoryItemId != "")).getLast?).map
    (·.inventoryItemId)

/-- The quantities array built by syncInventoryForProduct from the
re-fetched product's variants and the group's rows. -/
def buildQuantities (locationId : String) (vars : List ExistingVariant)
    (rows : List ProductRow) : List QuantityLine :=
  rows.filterMap (fun row =>
    let sku := jsTrim row.VariantSKU
    if sku = "" then none
    else if row.VariantInventoryQuantity = Cell.blank then none
    else
      match jsNumber row.VariantInventoryQuantity with
      | none => none
      | some qty =>
        match inventoryItemIdBySkuGet vars sku with
        | none => none
        | some invItemId => some ⟨invItemId, locationId, qty⟩)

/-- One observable remote request (or recorded dry-run skip) of an
orchestrator pass.  `dryRunSkip` carries the counts the dry-run branch
logs from the payload it has just built. -/
inductive SyncEvent where
  | lookupRequest (handle : String)
  | upsertRequest (handle : String) (input : ProductSetInput)
  | inventoryRequest (input : InventorySetInput)
  | dryRunSkip (handle : String) (variantsCount filesCount metafieldsCount : ℕ)
deriving DecidableEq

/-- syncInventoryForProduct from productSync.js, as the list of gateway
requests it performs.  Its caller wraps it in try/catch, so a rejected
request here ends the record's events without aborting the pass. -/
def syncInventoryForProduct (env : RemoteEnv) (cfg : Config) (handle : String)
    (productRowsForHandle : List ProductRow) : List SyncEvent :=
  if cfg.defaultLocationId = "" then []
  else
    SyncEvent.lookupRequest handle ::
      match env.refetchProduct handle with
      | .error _ => []
      | .ok none => []
      | .ok (some product) =>
        let quantities :=
          buildQuantities cfg.defaultLocationId product.variants productRowsForHandle
        if quantities = [] then []
        else [SyncEvent.inventoryRequest ⟨"available", "correction", true, quantities⟩]

/-- The body of the `for (const [handle, productRowsForHandle] of ...)`
loop in syncAllProductsFromExcel, for one grouping key: the events it
produces and, when an exception escapes the body (only the initial
fetchProductByHandle is outside the try/catch), the propagated error. -/
def syncOneProduct (env : RemoteEnv) (cfg : Config) (dryRun : Bool)
    (imagesByHandle : String → List ImageRow)
    (metafieldsByHandle : String → List MetafieldRow)
    (handle : String) (productRowsForHandle : List ProductRow) :
    List SyncEvent × Option String :=
  match env.lookupProduct handle with
  | .error e => ([SyncEvent.lookupRequest handle], some e)
  | .ok existingProduct =>
    let productInput :=
      buildProductSetInput handle productRowsForHandle existingProduct
        (imagesByHandle handle) (metafieldsByHandle handle)
    if dryRun then
      ([SyncEvent.lookupRequest handle,
        SyncEvent.dryRunSkip handle productInput.variants.length
          (productInput.files.getD []).length
          (productInput.metafields.getD []).length], none)
    else
      let evs := [SyncEvent.lookupRequest handle,
                  SyncEvent.upsertRequest handle productInput]
      match env.productSet handle productInput with
      | .error _ => (evs, none)
      | .ok none => (evs, none)
      | .ok (some payload) =>
        if payload.userErrors ≠ [] then (evs, none)
        else
          match payload.product with
          | some _ =>
            (evs ++ syncInventoryForProduct env cfg handle productRowsForHandle, none)
          | none => (evs, none)

/-- syncAllProductsFromExcel from productSync.js: the grouped records in
map-iteration (insertion) order, each processed by the loop body; an
error escaping a body rejects the whole pass (remaining records are not
processed). -/
def syncAllProductsFromExcel (env : RemoteEnv) (cfg : Config) (dryRun : Bool)
    (imagesByHandle : String → List ImageRow)
    (metafieldsByHandle : String → List MetafieldRow) :
    List (String × List ProductRow) → List SyncEvent × Option String
  | [] => ([], none)
  | (handle, rows) :: rest =>
    match syncOneProduct env cfg dryRun imagesByHandle metafieldsByHandle handle rows with
    | (evs, some e) => (evs, some e)
    | (evs, none) =>
      let t := syncAllProductsFromExcel env cfg dryRun imagesByHandle metafieldsByHandle rest
      (evs ++ t.1, t.2)

/-- The product a successful lookupProduct answer carries (used to state
properties under the hypothesis that the lookup did not reject). -/
def lookupResult (env : RemoteEnv) (handle : String) : Option Product :=
  match env.lookupProduct handle with
  | .ok p => p
  | .error _ => none

/-- Whether a sync event is a remote write request. -/
def SyncEvent.isWrite : SyncEvent → Bool
  | .upsertRequest _ _ => true
  | .inventoryRequest _ => true
  | _ => false

/-- Whether a sync event is a remote read request. -/
def SyncEvent.isRead : SyncEvent → Bool
  | .lookupRequest _ => true
  | _ => false

/-! ### Concrete response data used by witnesses -/

/-- A response body with no errors and no cost envelope. -/
def cleanData : GraphQLData := ⟨[], none⟩

/-- A well-formed response body reporting 30 available credits and a
restore rate of 10 per second. -/
def lowCreditData : GraphQLData :=
  ⟨[], some ⟨some 10, some 10, some ⟨some 1000, some 30, some 10⟩⟩⟩

/-- A response body whose cost block has no throttleStatus, so the
extracted currentlyAvailable and restoreRate are not numbers. -/
def malformedCostData : GraphQLData := ⟨[], some ⟨some 10, some 10, none⟩⟩

/-- A response body carrying one application-level error. -/
def userErrorData : GraphQLData := ⟨["boom"], none⟩

/-! ### Concrete orchestrator data used by witnesses -/

/-- Variant row "S1" of grouping key "shirt-1", quantity 10. -/
def shirtRow1 : ProductRow :=
  { ProductHandle := "shirt-1"
    ProductTitle := "Shirt"
    VariantSKU := "S1"
    VariantTitle := "Default"
    VariantPrice := .num 5
    VariantInventoryQuantity := .num 10 }

/-- Variant row "S2" of grouping key "shirt-1", quantity blank. -/
def shirtRow2 : ProductRow :=
  { ProductHandle := "shirt-1"
    ProductTitle := "Shirt"
    VariantSKU := "S2"
    VariantTitle := "Other"
    VariantPrice := .num 6 }

/-- The existing remote variant with SKU "S1": id "V1", inventory item "I1". -/
def shirtVariant1 : ExistingVariant := ⟨"V1", "S1", "Default", "I1"⟩

/-- The existing remote product for handle "shirt-1". -/
def shirtProduct : Product := ⟨"P1", "shirt-1", "Shirt", [shirtVariant1]⟩

/-- A remote environment where "shirt-1" already exists and every write
succeeds without user errors. -/
def envShirt : RemoteEnv :=
  { lookupProduct := fun h => .ok (if h = "shirt-1" then some shirtProduct else none)
    productSet := fun _ _ => .ok (some ⟨some shirtProduct, []⟩)
    refetchProduct := fun h => .ok (if h = "shirt-1" then some shirtProduct else none)
    inventorySet := fun _ => .ok [] }

/-- A configuration with a default inventory location. -/
def locConfig : Config := { defaultLocationId := "LOC1" }

/-- A minimal variant row used by generic orchestrator witnesses. -/
def plainRow : ProductRow :=
  { ProductHandle := "h1"
    ProductTitle := "T"
    VariantSKU := "K1"
    VariantPrice := .num 1 }

/-- A remote environment where the per-record lookup of handle "h1"
rejects with a transport failure and every other call succeeds. -/
def envAbort : RemoteEnv :=
  { lookupProduct := fun h => if h = "h1" then .error "ECONNRESET" else .ok none
    productSet := fun _ _ => .ok none
    refetchProduct := fun _ => .ok none
    inventorySet := fun _ => .ok [] }

/-- A remote environment whose upsert always reports one user error. -/
def envUserErr : RemoteEnv :=
  { lookupProduct := fun _ => .ok none
    productSet := fun _ _ => .ok (some ⟨none, [⟨"title", "is invalid"⟩]⟩)
    refetchProduct := fun _ => .ok none
    inventorySet := fun _ => .ok [] }

/-- The two events the dry-run branch produces for one record: the
existing-entity lookup, then the recorded skip carrying the counts of
the payload built from that lookup result. -/
def dryRunRecordEvents (env : RemoteEnv)
    (imagesByHandle : String → List ImageRow)
    (metafieldsByHandle : String → List MetafieldRow)
    (r : String × List ProductRow) : List SyncEvent :=
  let inp := buildProductSetInput r.1 r.2 (lookupResult env r.1)
    (imagesByHandle r.1) (metafieldsByHandle r.1)
  [SyncEvent.lookupRequest r.1,
   SyncEvent.dryRunSkip r.1 inp.variants.length
     (inp.files.getD []).length (inp.metafields.getD []).length]

/-! ### Claim theorems -/

/-- C1: for a successful transport response whose credit envelope reports
availableCredits < 50 and restoreRate > 0, the executor suspends for
exactly `ceil((2*50 - availableCredits) / restoreRate * 1000)` ms before
returning; for availableCredits ≥ 50 it returns with no suspension. -/
theorem C1_preemptive_pacing (oracle : ℕ → TransportOutcome) (d : GraphQLData)
    (ti : ThrottleInfo) (ca rr : ℚ)
    (h1 : oracle 1 = .ok d) (he : d.errors = [])
    (hti : extractThrottleInfo d = some ti)
    (hca : ti.currentlyAvailable = some ca) (hrr : ti.restoreRate = some rr) :
    (ca < LOW_CREDITS_THRESHOLD → 0 < rr →
      callShopifyGraphQL oracle =
        ⟨1, [((⌈(2 * LOW_CREDITS_THRESHOLD - ca) / rr * 1000⌉ : ℤ) : ℚ)], .returned d⟩) ∧
    (LOW_CREDITS_THRESHOLD ≤ ca →
      callShopifyGraphQL oracle = ⟨1, [], .returned d⟩) := by
  have hthr : LOW_CREDITS_THRESHOLD = (50 : ℚ) := rfl
  constructor
  · intro hlt hpos
    have hmax : max (0 : ℚ) (LOW_CREDITS_THRESHOLD * 2 - ca) = LOW_CREDITS_THRESHOLD * 2 - ca := by
      rw [hthr] at hlt ⊢
      exact max_eq_right (by linarith)
    have hdef : (0 : ℚ) < LOW_CREDITS_THRESHOLD * 2 - ca := by
      rw [hthr] at hlt ⊢
      linarith
    have hcomm : LOW_CREDITS_THRESHOLD * 2 - ca = 2 * LOW_CREDITS_THRESHOLD - ca := by ring
    have hdef2 : ca < 2 * LOW_CREDITS_THRESHOLD := by
      rw [hthr] at hlt ⊢
      linarith
    have hmax2 : (0 : ℚ) ⊔ (2 * LOW_CREDITS_THRESHOLD - ca) = 2 * LOW_CREDITS_THRESHOLD - ca := by
      rw [hthr] at hlt ⊢
      exact max_eq_right (by linarith)
    simp [callShopifyGraphQL, callLoopAux, MAX_RETRIES, INITIAL_BACKOFF_MS, h1, he,
      applyPreemptiveThrottleWait, hti, hca, hrr, hlt, hmax, hmax2, hdef, hdef2, hpos, hcomm]
  · intro hge
    have hnlt : ¬ ca < LOW_CREDITS_THRESHOLD := not_lt.mpr hge
    simp [callShopifyGraphQL, callLoopAux, MAX_RETRIES, INITIAL_BACKOFF_MS, h1, he,
      applyPreemptiveThrottleWait, hti, hca, hrr, hnlt]

/-- C1 witness: a response with availableCredits = 30 and restoreRate = 10
per second makes the executor wait exactly 7000 ms. -/
theorem C1_preemptive_pacing_witness :
    callShopifyGraphQL (fun _ => .ok lowCreditData) =
      ⟨1, [7000], .returned lowCreditData⟩ := by
  have h :=
    (C1_preemptive_pacing (fun _ => .ok lowCreditData) lowCreditData
        ⟨some 10, some 10, some 1000, some 30, some 10⟩ 30 10 rfl rfl rfl rfl rfl).1
      (by norm_num [LOW_CREDITS_THRESHOLD]) (by norm_num)
  rw [h]
  norm_num [LOW_CREDITS_THRESHOLD]

/-- C2: when every attempt of a logical call is rejected with HTTP 429,
the executor issues exactly MAX_RETRIES + 1 = 6 requests (the initial one
plus 5 retries) and then propagates the last 429 rejection unchanged. -/
theorem C2_retry_bound (oracle : ℕ → TransportOutcome) (hdr : ℕ → RetryAfterHeader)
    (h429 : ∀ i, 1 ≤ i → i ≤ MAX_RETRIES + 1 → oracle i = .http429 (hdr i)) :
    (callShopifyGraphQL oracle).requests = MAX_RETRIES + 1 ∧
    (callShopifyGraphQL oracle).outcome =
      .threw (.http429 (hdr (MAX_RETRIES + 1))) := by
  have e1 := h429 1 (by norm_num) (by norm_num [MAX_RETRIES])
  have e2 := h429 2 (by norm_num) (by norm_num [MAX_RETRIES])
  have e3 := h429 3 (by norm_num) (by norm_num [MAX_RETRIES])
  have e4 := h429 4 (by norm_num) (by norm_num [MAX_RETRIES])
  have e5 := h429 5 (by norm_num) (by norm_num [MAX_RETRIES])
  have e6 := h429 6 (by norm_num) (by norm_num [MAX_RETRIES])
  constructor <;>
    simp [callShopifyGraphQL, callLoopAux, MAX_RETRIES, INITIAL_BACKOFF_MS,
      e1, e2, e3, e4, e5, e6]

/-- C2 witness: with every attempt answered 429 (no retry-after header),
the call issues 6 requests and ends by propagating the 429. -/
theorem C2_retry_bound_witness :
    (callShopifyGraphQL (fun _ => .http429 .absent)).requests = MAX_RETRIES + 1 ∧
    (callShopifyGraphQL (fun _ => .http429 .absent)).outcome =
      .threw (.http429 .absent) :=
  C2_retry_bound (fun _ => .http429 .absent) (fun _ => .absent)
    (fun _ _ _ => rfl)

/-- C3: across the 429-triggered retries of one logical call, the attempt
count increases by one per request (k throttled attempts followed by a
success issue exactly k + 1 requests) and the backoff wait doubles after
each throttling retry starting from INITIAL_BACKOFF_MS = 1000 ms: the
waits are exactly 1000·2^0, …, 1000·2^(k-1).  Both counters are local
variables of callShopifyGraphQL, so they restart at 0 and 1000 ms on
every new logical call by construction. -/
theorem C3_backoff_doubling (oracle : ℕ → TransportOutcome) (k : ℕ) (d : GraphQLData)
    (hk : k ≤ MAX_RETRIES)
    (h429 : ∀ i, 1 ≤ i → i ≤ k → oracle i = .http429 .absent)
    (hok : oracle (k + 1) = .ok d) (he : d.errors = [])
    (hcost : d.extensionsCost = none) :
    callShopifyGraphQL oracle =
      ⟨k + 1, (List.range k).map (fun i => INITIAL_BACKOFF_MS * 2 ^ i), .returned d⟩ := by
  rw [MAX_RETRIES] at hk
  interval_cases k
  · simp [callShopifyGraphQL, callLoopAux, MAX_RETRIES, INITIAL_BACKOFF_MS,
      hok, he, hcost, extractThrottleInfo, applyPreemptiveThrottleWait]
  · have e1 := h429 1 (by norm_num) (by norm_num)
    simp [callShopifyGraphQL, callLoopAux, MAX_RETRIES, INITIAL_BACKOFF_MS,
      computeRetryAfterMs, e1, hok, he, hcost, extractThrottleInfo,
      applyPreemptiveThrottleWait, List.range_succ]
    try norm_num
  · have e1 := h429 1 (by norm_num) (by norm_num)
    have e2 := h429 2 (by norm_num) (by norm_num)
    simp [callShopifyGraphQL, callLoopAux, MAX_RETRIES, INITIAL_BACKOFF_MS,
      computeRetryAfterMs, e1, e2, hok, he, hcost, extractThrottleInfo,
      applyPreemptiveThrottleWait, List.range_succ]
    try norm_num
  · have e1 := h429 1 (by norm_num) (by norm_num)
    have e2 := h429 2 (by norm_num) (by norm_num)
    have e3 := h429 3 (by norm_num) (by norm_num)
    simp [callShopifyGraphQL, callLoopAux, MAX_RETRIES, INITIAL_BACKOFF_MS,
      computeRetryAfterMs, e1, e2, e3, hok, he, hcost, extractThrottleInfo,
      applyPreemptiveThrottleWait, List.range_succ]
    try norm_num
  · have e1 := h429 1 (by norm_num) (by norm_num)
    have e2 := h429 2 (by norm_num) (by norm_num)
    have e3 := h429 3 (by norm_num) (by norm_num)
    have e4 := h429 4 (by norm_num) (by norm_num)
    simp [callShopifyGraphQL, callLoopAux, MAX_RETRIES, INITIAL_BACKOFF_MS,
      computeRetryAfterMs, e1, e2, e3, e4, hok, he, hcost, extractThrottleInfo,
      applyPreemptiveThrottleWait, List.range_succ]
    try norm_num
  · have e1 := h429 1 (by norm_num) (by norm_num)
    have e2 := h429 2 (by norm_num) (by norm_num)
    have e3 := h429 3 (by norm_num) (by norm_num)
    have e4 := h429 4 (by norm_num) (by norm_num)
    have e5 := h429 5 (by norm_num) (by norm_num)
    simp [callShopifyGraphQL, callLoopAux, MAX_RETRIES, INITIAL_BACKOFF_MS,
      computeRetryAfterMs, e1, e2, e3, e4, e5, hok, he, hcost, extractThrottleInfo,
      applyPreemptiveThrottleWait, List.range_succ]
    try norm_num

/-- C3 witness: three 429 rejections followed by a clean success issue 4
requests with backoff waits 1000, 2000, 4000 ms. -/
theorem C3_backoff_doubling_witness :
    callShopifyGraphQL
        (fun i => if i ≤ 3 then .http429 .absent else .ok cleanData) =
      ⟨4, [1000, 2000, 4000], .returned cleanData⟩ := by
  have h := C3_backoff_doubling
      (fun i => if i ≤ 3 then .http429 .absent else .ok cleanData) 3 cleanData
      (by norm_num [MAX_RETRIES])
      (fun i h1 h3 => by simp only []; rw [if_pos h3])
      (by norm_num) rfl rfl
  rw [h]
  norm_num [INITIAL_BACKOFF_MS, List.range_succ]

/-- C4: on a 429 rejection the executor waits
`max(backoffMs, suggestedSeconds * 1000)` — at least the server-suggested
delay when that exceeds the current backoff, and exactly the computed
backoff when the suggestion is zero, negative, non-numeric or absent;
the first retry of a call waits `computeRetryAfterMs 1000 header`. -/
theorem C4_retry_after_suggestion (oracle : ℕ → TransportOutcome) (d : GraphQLData)
    (header : RetryAfterHeader)
    (h1 : oracle 1 = .http429 header) (h2 : oracle 2 = .ok d)
    (he : d.errors = []) (hcost : d.extensionsCost = none) :
    callShopifyGraphQL oracle =
      ⟨2, [computeRetryAfterMs INITIAL_BACKOFF_MS header], .returned d⟩ ∧
    (∀ b s : ℚ, b < s * 1000 → s * 1000 ≤ computeRetryAfterMs b (.numeric s)) ∧
    (∀ b s : ℚ, 0 ≤ b → s ≤ 0 → computeRetryAfterMs b (.numeric s) = b) ∧
    (∀ b : ℚ, computeRetryAfterMs b .absent = b ∧ computeRetryAfterMs b .nonNumeric = b) := by
  refine ⟨?_, ?_, ?_, ?_⟩
  · simp [callShopifyGraphQL, callLoopAux, MAX_RETRIES, INITIAL_BACKOFF_MS,
      h1, h2, he, hcost, extractThrottleInfo, applyPreemptiveThrottleWait]
  · intro b s _
    exact le_max_right b (s * 1000)
  · intro b s hb hs
    exact max_eq_left (by nlinarith)
  · intro b
    exact ⟨rfl, rfl⟩

/-- C4 witness: a 429 with a retry-after suggestion of 30 s followed by a
clean success makes the executor wait 30000 ms (above the 1000 ms
backoff), and the computed wait for a zero suggestion is the backoff. -/
theorem C4_retry_after_suggestion_witness :
    callShopifyGraphQL
        (fun i => if i = 1 then .http429 (.numeric 30) else .ok cleanData) =
      ⟨2, [30000], .returned cleanData⟩ ∧
    computeRetryAfterMs 1000 (.numeric 0) = 1000 := by
  have h := C4_retry_after_suggestion
      (fun i => if i = 1 then .http429 (.numeric 30) else .ok cleanData) cleanData
      (.numeric 30) rfl rfl rfl rfl
  refine ⟨?_, h.2.2.1 1000 0 (by norm_num) (by norm_num)⟩
  rw [h.1]
  norm_num [computeRetryAfterMs, INITIAL_BACKOFF_MS]

/-- C5: the executor retries only on the 429 transport signal — a
successful transport response carrying application-level errors is
returned as-is after a single request with no retry and no pacing wait,
and any other transport failure is propagated immediately after a single
request. -/
theorem C5_no_retry_on_business_or_other (oracle : ℕ → TransportOutcome)
    (d : GraphQLData) (status : Option ℕ) :
    (oracle 1 = .ok d → d.errors ≠ [] →
      callShopifyGraphQL oracle = ⟨1, [], .returned d⟩) ∧
    (oracle 1 = .otherFailure status →
      callShopifyGraphQL oracle = ⟨1, [], .threw (.otherFailure status)⟩) := by
  constructor
  · intro h1 he
    simp [callShopifyGraphQL, callLoopAux, MAX_RETRIES, INITIAL_BACKOFF_MS, h1, he]
  · intro h1
    simp [callShopifyGraphQL, callLoopAux, MAX_RETRIES, INITIAL_BACKOFF_MS, h1]

/-- C5 witness: a response with one GraphQL error is returned unchanged
after one request, and a 500 rejection is propagated after one request. -/
theorem C5_no_retry_on_business_or_other_witness :
    callShopifyGraphQL (fun _ => .ok userErrorData) =
      ⟨1, [], .returned userErrorData⟩ ∧
    callShopifyGraphQL (fun _ => .otherFailure (some 500)) =
      ⟨1, [], .threw (.otherFailure (some 500))⟩ :=
  ⟨(C5_no_retry_on_business_or_other (fun _ => .ok userErrorData) userErrorData
      (some 500)).1 rfl (by simp [userErrorData]),
   (C5_no_retry_on_business_or_other (fun _ => .otherFailure (some 500))
      userErrorData (some 500)).2 rfl⟩

/-- C9: a missing or malformed credit envelope (no cost block, or
currentlyAvailable / restoreRate not a number) disables pacing for that
call only: the executor performs no wait and returns the response
normally, while a later logical call with a well-formed low-credit
envelope still waits. -/
theorem C9_fail_open_on_malformed_envelope (oracle : ℕ → TransportOutcome)
    (d : GraphQLData) (h1 : oracle 1 = .ok d) (he : d.errors = [])
    (hmal : d.extensionsCost = none ∨
      ∃ ti, extractThrottleInfo d = some ti ∧
        (ti.currentlyAvailable = none ∨ ti.restoreRate = none)) :
    callShopifyGraphQL oracle = ⟨1, [], .returned d⟩ ∧
    callShopifyGraphQL (fun _ => .ok lowCreditData) =
      ⟨1, [7000], .returned lowCreditData⟩ := by
  constructor
  · rcases hmal with hnone | ⟨ti, hti, hfield⟩
    · simp [callShopifyGraphQL, callLoopAux, MAX_RETRIES, INITIAL_BACKOFF_MS,
        h1, he, extractThrottleInfo, hnone, applyPreemptiveThrottleWait]
    · rcases hfield with hca | hrr
      · simp [callShopifyGraphQL, callLoopAux, MAX_RETRIES, INITIAL_BACKOFF_MS,
          h1, he, hti, applyPreemptiveThrottleWait, hca]
      · rcases hca : ti.currentlyAvailable with _ | ca <;>
          simp [callShopifyGraphQL, callLoopAux, MAX_RETRIES, INITIAL_BACKOFF_MS,
            h1, he, hti, applyPreemptiveThrottleWait, hca, hrr]
  · norm_num [callShopifyGraphQL, callLoopAux, MAX_RETRIES, INITIAL_BACKOFF_MS,
      lowCreditData, extractThrottleInfo, applyPreemptiveThrottleWait,
      LOW_CREDITS_THRESHOLD]

/-- C9 witness: a response whose cost block lacks a throttleStatus is
returned after one request with no pacing wait. -/
theorem C9_fail_open_on_malformed_envelope_witness :
    callShopifyGraphQL (fun _ => .ok malformedCostData) =
      ⟨1, [], .returned malformedCostData⟩ :=
  (C9_fail_open_on_malformed_envelope (fun _ => .ok malformedCostData)
      malformedCostData rfl rfl
      (Or.inr ⟨⟨some 10, some 10, none, none, none⟩, rfl, Or.inl rfl⟩)).1

/-- C6: in the upsert payload, every variant row whose trimmed SKU
resolves in the fetched existing entity's variant map (built by SKU, last
entry winning, as a JS Map) carries that existing variant's internal
identifier.  The payload's variant list is the row list mapped through
`buildVariantInput`, whose result depends only on the row and the SKU
lookup — never on the row's position — so on a second identical run every
SKU created by the first run resolves and is sent as an update, not a
creation. -/
theorem C6_existing_sku_gets_id (handle : String) (rows : List ProductRow)
    (existing : Product) (imgs : List ImageRow) (metas : List MetafieldRow)
    (row : ProductRow) (hrow : row ∈ rows) (e : ExistingVariant)
    (hfind : existingVariantsBySkuGet existing.variants (jsTrim row.VariantSKU) = some e)
    (hid : e.id ≠ "") :
    (buildProductSetInput handle rows (some existing) imgs metas).variants =
      rows.map (buildVariantInput existing.variants) ∧
    (buildVariantInput existing.variants row).id = some e.id ∧
    buildVariantInput existing.variants row ∈
      (buildProductSetInput handle rows (some existing) imgs metas).variants := by
  have h1 : (buildProductSetInput handle rows (some existing) imgs metas).variants =
      rows.map (buildVariantInput existing.variants) := rfl
  have hsku : jsTrim row.VariantSKU ≠ "" := by
    have hmem := List.mem_of_mem_getLast? hfind
    have hp := (List.mem_filter.mp hmem).2
    simp only [Bool.and_eq_true, beq_iff_eq, bne_iff_ne, ne_eq] at hp
    intro h0
    exact hp.2 (hp.1.trans h0)
  refine ⟨h1, ?_, ?_⟩
  · simp [buildVariantInput, hsku, hfind, hid]
  · rw [h1]
    exact List.mem_map_of_mem _ hrow

/-- C6 witness: for the shirt data, row "S1" resolves to the existing
variant "V1" and its payload entry carries id "V1". -/
theorem C6_existing_sku_gets_id_witness :
    (buildVariantInput shirtProduct.variants shirtRow1).id = some "V1" ∧
    buildVariantInput shirtProduct.variants shirtRow1 ∈
      (buildProductSetInput "shirt-1" [shirtRow1, shirtRow2]
        (some shirtProduct) [] []).variants := by
  have h := C6_existing_sku_gets_id "shirt-1" [shirtRow1, shirtRow2] shirtProduct
    [] [] shirtRow1 (by decide) shirtVariant1 (by decide) (by decide)
  exact ⟨h.2.1, h.2.2⟩

/-- C7 counterexample: a transport failure of the per-record lookup of
the existing entity (which the source performs outside the per-record
try/catch) rejects the whole pass: with two grouping keys and a lookup
failure on the first, the run ends with the propagated error and the
second key is never processed — so a per-record remote-call transport
failure can abort the pass over the remaining records. -/
theorem C7_counterexample :
    syncAllProductsFromExcel envAbort locConfig false (fun _ => [])
        (fun _ => []) [("h1", [plainRow]), ("h2", [plainRow])] =
      ([SyncEvent.lookupRequest "h1"], some "ECONNRESET") ∧
    SyncEvent.lookupRequest "h2" ∉
      (syncAllProductsFromExcel envAbort locConfig false (fun _ => [])
        (fun _ => []) [("h1", [plainRow]), ("h2", [plainRow])]).1 := by
  decide

/-- C7 (amended): a record whose upsert returns user errors, or whose
upsert call itself rejects, produces exactly the lookup and upsert
requests — no inventory-sync call — and does not abort the pass: the
remaining grouping keys are processed exactly as they would be alone.
(The unamended claim fails only for a transport failure of the
per-record existing-entity lookup, which escapes the try/catch.) -/
theorem C7_upsert_failure_isolated (env : RemoteEnv) (cfg : Config)
    (imagesByHandle : String → List ImageRow)
    (metafieldsByHandle : String → List MetafieldRow)
    (handle : String) (rows : List ProductRow) (p : Option Product)
    (hl : env.lookupProduct handle = .ok p) :
    (∀ payload,
      env.productSet handle
          (buildProductSetInput handle rows p (imagesByHandle handle)
            (metafieldsByHandle handle)) = .ok (some payload) →
      payload.userErrors ≠ [] →
      syncOneProduct env cfg false imagesByHandle metafieldsByHandle handle rows =
        ([SyncEvent.lookupRequest handle,
          SyncEvent.upsertRequest handle
            (buildProductSetInput handle rows p (imagesByHandle handle)
              (metafieldsByHandle handle))], none)) ∧
    (∀ msg,
      env.productSet handle
          (buildProductSetInput handle rows p (imagesByHandle handle)
            (metafieldsByHandle handle)) = .error msg →
      syncOneProduct env cfg false imagesByHandle metafieldsByHandle handle rows =
        ([SyncEvent.lookupRequest handle,
          SyncEvent.upsertRequest handle
            (buildProductSetInput handle rows p (imagesByHandle handle)
              (metafieldsByHandle handle))], none)) ∧
    (∀ rest evs,
      syncOneProduct env cfg false imagesByHandle metafieldsByHandle handle rows =
        (evs, none) →
      syncAllProductsFromExcel env cfg false imagesByHandle metafieldsByHandle
          ((handle, rows) :: rest) =
        (evs ++ (syncAllProductsFromExcel env cfg false imagesByHandle
            metafieldsByHandle rest).1,
         (syncAllProductsFromExcel env cfg false imagesByHandle
            metafieldsByHandle rest).2)) := by
  refine ⟨?_, ?_, ?_⟩
  · intro payload hps hue
    simp only [syncOneProduct, hl]
    rw [hps]
    simp [hue]
  · intro msg hps
    simp only [syncOneProduct, hl]
    rw [hps]
    simp
  · intro rest evs hone
    simp [syncAllProductsFromExcel, hone]

/-- C7 witness: with an upsert that reports one user error, the record
produces only the lookup and upsert requests, and a following record is
still processed. -/
theorem C7_upsert_failure_isolated_witness :
    syncOneProduct envUserErr locConfig false (fun _ => []) (fun _ => [])
        "h1" [plainRow] =
      ([SyncEvent.lookupRequest "h1",
        SyncEvent.upsertRequest "h1"
          (buildProductSetInput "h1" [plainRow] none [] [])], none) ∧
    syncAllProductsFromExcel envUserErr locConfig false (fun _ => [])
        (fun _ => []) [("h1", [plainRow]), ("h2", [plainRow])] =
      ([SyncEvent.lookupRequest "h1",
        SyncEvent.upsertRequest "h1"
          (buildProductSetInput "h1" [plainRow] none [] [])] ++
        (syncAllProductsFromExcel envUserErr locConfig false (fun _ => [])
          (fun _ => []) [("h2", [plainRow])]).1,
       (syncAllProductsFromExcel envUserErr locConfig false (fun _ => [])
          (fun _ => []) [("h2", [plainRow])]).2) := by
  have h := C7_upsert_failure_isolated envUserErr locConfig (fun _ => [])
    (fun _ => []) "h1" [plainRow] none rfl
  have h1 := h.1 ⟨none, [⟨"title", "is invalid"⟩]⟩ rfl (by decide)
  exact ⟨h1, h.2.2 [("h2", [plainRow])] _ h1⟩

/-- C8: for the two "shirt-1" rows (SKU "S1" with quantity 10, SKU "S2"
with blank quantity) and an existing entity whose variant "S1" has id
"V1" and inventory item "I1", the built payload's variant list is an
entry with id "V1" / sku "S1" and an entry with no id / sku "S2", and the
post-upsert inventory call carries exactly one quantity line, for "S1". -/
theorem C8_shirt_example :
    (buildProductSetInput "shirt-1" [shirtRow1, shirtRow2]
        (some shirtProduct) [] []).variants.map (fun v => (v.id, v.sku)) =
      [(some "V1", some "S1"), (none, some "S2")] ∧
    syncOneProduct envShirt locConfig false (fun _ => []) (fun _ => [])
        "shirt-1" [shirtRow1, shirtRow2] =
      ([SyncEvent.lookupRequest "shirt-1",
        SyncEvent.upsertRequest "shirt-1"
          (buildProductSetInput "shirt-1" [shirtRow1, shirtRow2]
            (some shirtProduct) [] []),
        SyncEvent.lookupRequest "shirt-1",
        SyncEvent.inventoryRequest
          ⟨"available", "correction", true, [⟨"I1", "LOC1", 10⟩]⟩], none) := by
  decide

/-- In the event stream a dry-run pass produces, no record contributes a
write request. -/
theorem dryRun_flatMap_no_write (env : RemoteEnv)
    (imagesByHandle : String → List ImageRow)
    (metafieldsByHandle : String → List MetafieldRow)
    (records : List (String × List ProductRow)) :
    (records.flatMap (dryRunRecordEvents env imagesByHandle metafieldsByHandle)).filter
      SyncEvent.isWrite = [] := by
  induction records with
  | nil => rfl
  | cons r rest ih =>
    simp only [List.flatMap_cons, List.filter_append, ih]
    simp [dryRunRecordEvents, SyncEvent.isWrite]

/-- In the event stream a dry-run pass produces, each record contributes
exactly one read request. -/
theorem dryRun_flatMap_one_read (env : RemoteEnv)
    (imagesByHandle : String → List ImageRow)
    (metafieldsByHandle : String → List MetafieldRow)
    (records : List (String × List ProductRow)) :
    ((records.flatMap (dryRunRecordEvents env imagesByHandle metafieldsByHandle)).filter
      SyncEvent.isRead).length = records.length := by
  induction records with
  | nil => rfl
  | cons r rest ih =>
    simp only [List.flatMap_cons, List.filter_append, List.length_append, ih]
    simp [dryRunRecordEvents, SyncEvent.isRead]
    omega

/-- C10: in dry-run mode, under lookups that do not reject, every
grouping key still issues its existing-entity lookup and has its full
upsert payload built (the recorded skip carries that payload's counts),
and the pass performs exactly one read request per key and no write
request. -/
theorem C10_dry_run_reads_only (env : RemoteEnv) (cfg : Config)
    (imagesByHandle : String → List ImageRow)
    (metafieldsByHandle : String → List MetafieldRow)
    (records : List (String × List ProductRow))
    (hok : ∀ r ∈ records, (env.lookupProduct r.1).isOk = true) :
    syncAllProductsFromExcel env cfg true imagesByHandle metafieldsByHandle records =
      (records.flatMap (dryRunRecordEvents env imagesByHandle metafieldsByHandle),
       none) ∧
    ((syncAllProductsFromExcel env cfg true imagesByHandle metafieldsByHandle
        records).1.filter SyncEvent.isWrite) = [] ∧
    ((syncAllProductsFromExcel env cfg true imagesByHandle metafieldsByHandle
        records).1.filter SyncEvent.isRead).length = records.length := by
  have main : syncAllProductsFromExcel env cfg true imagesByHandle metafieldsByHandle
      records =
      (records.flatMap (dryRunRecordEvents env imagesByHandle metafieldsByHandle),
       none) := by
    induction records with
    | nil => simp [syncAllProductsFromExcel]
    | cons r rest ih =>
      obtain ⟨handle, rows⟩ := r
      have hr := hok ⟨handle, rows⟩ (List.mem_cons_self _ _)
      obtain ⟨p, hp⟩ : ∃ p, env.lookupProduct handle = .ok p := by
        cases hcase : env.lookupProduct handle with
        | ok p => exact ⟨p, rfl⟩
        | error e =>
          rw [hcase] at hr
          simp [Except.isOk, Except.toBool] at hr
      have hone : syncOneProduct env cfg true imagesByHandle metafieldsByHandle
          handle rows =
          (dryRunRecordEvents env imagesByHandle metafieldsByHandle ⟨handle, rows⟩,
           none) := by
        simp [syncOneProduct, hp, dryRunRecordEvents, lookupResult]
      have ihr := ih (fun x hx => hok x (List.mem_cons_of_mem _ hx))
      simp [syncAllProductsFromExcel, hone, ihr]
  refine ⟨main, ?_, ?_⟩
  · rw [main]
    exact dryRun_flatMap_no_write env imagesByHandle metafieldsByHandle records
  · rw [main]
    exact dryRun_flatMap_one_read env imagesByHandle metafieldsByHandle records

/-- C10 witness: a dry run over the shirt record and one unknown handle
issues exactly the two lookup/skip pairs — two reads, zero writes. -/
theorem C10_dry_run_reads_only_witness :
    syncAllProductsFromExcel envShirt locConfig true (fun _ => [])
        (fun _ => []) [("shirt-1", [shirtRow1, shirtRow2]), ("h2", [plainRow])] =
      ([("shirt-1", [shirtRow1, shirtRow2]), ("h2", [plainRow])].flatMap
        (dryRunRecordEvents envShirt (fun _ => []) (fun _ => [])), none) := by
  exact (C10_dry_run_reads_only envShirt locConfig (fun _ => []) (fun _ => [])
    [("shirt-1", [shirtRow1, shirtRow2]), ("h2", [plainRow])] (by decide)).1
